import Mathlib

/-!
# service-training: metrics middleware, service lifecycle, product store

A shallow embedding of three pieces of the repository:

* `internal/mid/metrics.go` (namespace `Mid`): the `Metrics` middleware and the
  package-level program counters `m`;
* `cmd/sales-api/main.go` (namespace `SalesApi`): the control path of `run`;
* `internal/products/products.go` (namespace `Products`): `Create` and `Get`
  over a relational store.
-/

namespace Mid

/-! ## `internal/mid/metrics.go` -/

/-- Reduction of an integer to the two's-complement `int64` range: the value an
`int64` variable holds after Go arithmetic produced the mathematical result `x`. -/
def wrap64 (x : Int) : Int := (x + 2 ^ 63) % 2 ^ 64 - 2 ^ 63

/-- Result of one call of a handler: it returns an `error` value (`none` is Go's
`nil`) or it panics with a value. -/
inductive Outcome (E P : Type) where
  | returned (err : Option E)
  | panicked (v : P)
deriving DecidableEq, Repr

/-- The package-level variable `m`: the three `expvar.Int` program counters. An
`expvar.Int` holds an `int64`. -/
structure Counters where
  gr : Int
  req : Int
  err : Int
deriving DecidableEq, Repr

/-- Observable actions of the closure built by `Metrics`: the call of the wrapped
handler, the operations on the counters of `m`, and the read of the goroutine count. -/
inductive Event (W R : Type) where
  | call (w : W) (r : R)
  | reqAdd (delta : Int)
  | reqValue
  | numGoroutine
  | grSet (v : Int)
  | errAdd (delta : Int)
deriving DecidableEq, Repr

/-- Process state seen by the middleware: `env` is everything a handler can reach
(response writers, database, scheduler), `m` the counters private to package `mid`,
`trace` the record of the actions performed so far, oldest first. -/
structure State (W R σ : Type) where
  env : σ
  m : Counters
  trace : List (Event W R)

/-- The type `web.Handler`, `func(http.ResponseWriter, *http.Request) error`, over
a process state of type `σ`. -/
abbrev Handler (W R E P σ : Type) := W → R → σ → Outcome E P × σ

/-- The method `(*expvar.Int).Add` on `m.req`: an atomic `int64` addition. -/
def reqAdd {W R σ : Type} (delta : Int) (s : State W R σ) : State W R σ :=
  { s with m := { s.m with req := wrap64 (s.m.req + delta) },
           trace := s.trace ++ [Event.reqAdd delta] }

/-- The method `(*expvar.Int).Value` on `m.req`. -/
def reqValue {W R σ : Type} (s : State W R σ) : Int × State W R σ :=
  (s.m.req, { s with trace := s.trace ++ [Event.reqValue] })

/-- The call `runtime.NumGoroutine()`, read off the environment by `NumGoroutine`. -/
def numGoroutine {W R σ : Type} (NumGoroutine : σ → Int) (s : State W R σ) :
    Int × State W R σ :=
  (NumGoroutine s.env, { s with trace := s.trace ++ [Event.numGoroutine] })

/-- The method `(*expvar.Int).Set` on `m.gr`. -/
def grSet {W R σ : Type} (v : Int) (s : State W R σ) : State W R σ :=
  { s with m := { s.m with gr := v }, trace := s.trace ++ [Event.grSet v] }

/-- The method `(*expvar.Int).Add` on `m.err`. -/
def errAdd {W R σ : Type} (delta : Int) (s : State W R σ) : State W R σ :=
  { s with m := { s.m with err := wrap64 (s.m.err + delta) },
           trace := s.trace ++ [Event.errAdd delta] }

/-- Lines 29 to 40 of `metrics.go`: what the closure does with the captured `err`
once `before` has returned. Go's `%` truncates toward zero (`Int.tmod`). -/
def record {W R E σ : Type} (NumGoroutine : σ → Int) (err : Option E)
    (s : State W R σ) : State W R σ :=
  -- m.req.Add(1)
  let s1 := reqAdd 1 s
  -- if m.req.Value()%100 == 0 { m.gr.Set(int64(runtime.NumGoroutine())) }
  let (v, s2) := reqValue s1
  let s3 :=
    if Int.tmod v 100 = 0 then
      let (n, s2a) := numGoroutine NumGoroutine s2
      grSet (wrap64 n) s2a
    else s2
  -- if err != nil { m.err.Add(1) }
  if err.isSome then errAdd 1 s3 else s3

/-- The function `Metrics`: the handler `h` it returns. `err := before(w, r)` comes
first; a panic of `before` unwinds through `h`, which has no `recover`, so nothing
after the call runs; otherwise the counters are updated and `err` is returned. -/
def Metrics {W R E P σ : Type} (NumGoroutine : σ → Int) (before : Handler W R E P σ) :
    Handler W R E P (State W R σ) :=
  fun w r s =>
    let s0 : State W R σ := { s with trace := s.trace ++ [Event.call w r] }
    match before w r s0.env with
    | (Outcome.panicked v, env1) => (Outcome.panicked v, { s0 with env := env1 })
    | (Outcome.returned err, env1) =>
      (Outcome.returned err, record NumGoroutine err { s0 with env := env1 })

/-- A run of requests handled one after another by the wrapped handler. A panic ends
the request it occurs in and nothing else: `net/http` recovers it and the server goes
on with the next request. -/
def serve {W R E P σ : Type} (NumGoroutine : σ → Int) (before : Handler W R E P σ)
    (reqs : List (W × R)) (s : State W R σ) : State W R σ :=
  reqs.foldl (fun acc wr => (Metrics NumGoroutine before wr.1 wr.2 acc).2) s

/-- The outcomes of the wrapped handler on a run of requests started in `env`. -/
def outcomes {W R E P σ : Type} (before : Handler W R E P σ) :
    List (W × R) → σ → List (Outcome E P)
  | [], _ => []
  | wr :: rest, env =>
    (before wr.1 wr.2 env).1 :: outcomes before rest (before wr.1 wr.2 env).2

/-- The handler returned (did not panic). -/
def Outcome.isReturned {E P : Type} : Outcome E P → Bool
  | Outcome.returned _ => true
  | Outcome.panicked _ => false

/-- The handler returned a non-nil error. -/
def Outcome.isError {E P : Type} : Outcome E P → Bool
  | Outcome.returned (some _) => true
  | _ => false

/-- The actions recorded between state `s` and a later state `t`. -/
def emitted {W R σ : Type} (s t : State W R σ) : List (Event W R) :=
  t.trace.drop s.trace.length

/-- The action is a `Set` of the goroutine gauge. -/
def Event.isGrSet {W R : Type} : Event W R → Bool
  | Event.grSet _ => true
  | _ => false

/-- The action is a call of the wrapped handler. -/
def Event.isCall {W R : Type} : Event W R → Bool
  | Event.call _ _ => true
  | _ => false

/-- Counters all zero, empty trace. -/
def State.init {W R σ : Type} (env : σ) : State W R σ :=
  { env := env, m := { gr := 0, req := 0, err := 0 }, trace := [] }

/-! ### Sample handlers and inputs -/

/-- A handler steered by the request: request `0` makes it panic, an odd request
makes it return an error, any other request makes it return nil. Its environment
counts the calls it received. -/
def sampleHandler : Handler Unit Nat String String Nat :=
  fun _ r n =>
    if r = 0 then (Outcome.panicked "boom", n + 1)
    else if r % 2 = 1 then (Outcome.returned (some "bad request"), n + 1)
    else (Outcome.returned none, n + 1)

/-- A goroutine count that stays at ten. -/
def tenGoroutines : Nat → Int := fun _ => 10

/-- A run of `n` requests, each answered with nil by `sampleHandler`. -/
def okRequests (n : Nat) : List (Unit × Nat) := List.replicate n ((), 2)

/-- A state late in the life of the process: request 100 sampled the gauge at fifty
goroutines, and 199 requests have been counted, three of them with an error. -/
def busyState : State Unit Nat Nat :=
  { env := 199, m := { gr := 50, req := 199, err := 3 }, trace := [] }

end Mid

namespace SalesApi

/-! ## `cmd/sales-api/main.go` -/

/-- Go `error` values as `run` sees them: an error produced by a callee, or one
wrapped with a message by `errors.Wrap`. -/
inductive Error where
  | base (msg : String)
  | wrapped (cause : Error) (message : String)
deriving DecidableEq, Repr

/-- The function `errors.Wrap` of `github.com/pkg/errors`: nil for a nil error,
otherwise the error annotated with `message`. `none` is Go's nil. -/
def Wrap (err : Option Error) (message : String) : Option Error :=
  match err with
  | none => none
  | some e => some (Error.wrapped e message)

/-- The case of the `select` statement of `run` that fires: a value received from
`serverErrors` (the result of `server.ListenAndServe`), or a signal received from
`osSignals`. -/
inductive Selected where
  | serverErrors (err : Option Error)
  | osSignals
deriving DecidableEq, Repr

/-- Everything outside `run` that decides its course: the results of the calls it
makes and the event its `select` receives. -/
structure World where
  processErr : Option Error
  configOnly : Bool
  encodeErr : Option Error
  openErr : Option Error
  selected : Selected
  shutdownErr : Option Error
  closeErr : Option Error
deriving DecidableEq, Repr

/-- The calls made on the control path of `run`, in the order it makes them. A
`println` stands for `log.Println` with its leading text and the error it prints. -/
inductive Action where
  | envconfigProcess
  | encodeConfig
  | databaseOpen
  | goListenAndServe
  | signalNotify
  | println (text : String) (err : Option Error)
  | withTimeout
  | serverShutdown
  | serverClose
  | cancel
  | dbClose
deriving DecidableEq, Repr

/-- Lines 103 to 116 of `main.go`: the case `<-osSignals` of the `select`. -/
def onSignal (w : World) : List Action :=
  -- log.Println("caught signal, shutting down")
  [Action.println "caught signal, shutting down" none,
   -- ctx, cancel := context.WithTimeout(...); defer cancel()
   Action.withTimeout,
   -- if err := server.Shutdown(ctx); err != nil {
   Action.serverShutdown] ++
  (match w.shutdownErr with
   | none => []
   | some e =>
     -- log.Println("gracefully shutting down server", "error", err)
     [Action.println "gracefully shutting down server" (some e),
      -- if err := server.Close(); err != nil {
      Action.serverClose] ++
     (match w.closeErr with
      | none => []
      | some e2 =>
        -- log.Println("closing server", "error", err)
        [Action.println "closing server" (some e2)]))

/-- The function `run`: the error it returns and the calls it made. The goroutine
started at line 91 runs beside this path; its own log line is not part of it.
Deferred calls (`cancel`, `db.Close`) run at the return, last deferred first. -/
def run (w : World) : Option Error × List Action :=
  match w.processErr with
  | some e => (Wrap (some e) "parsing config", [Action.envconfigProcess])
  | none =>
    if w.configOnly then
      match w.encodeErr with
      | some e =>
        (Wrap (some e) "encoding config as json",
          [Action.envconfigProcess, Action.encodeConfig])
      | none => (none, [Action.envconfigProcess, Action.encodeConfig])
    else
      match w.openErr with
      | some e =>
        (Wrap (some e) "connecting to db", [Action.envconfigProcess, Action.databaseOpen])
      | none =>
        let started :=
          [Action.envconfigProcess, Action.databaseOpen, Action.goListenAndServe,
           Action.signalNotify]
        match w.selected with
        | Selected.serverErrors err =>
          (Wrap err "listening and serving", started ++ [Action.dbClose])
        | Selected.osSignals =>
          (none, started ++ onSignal w ++
            [Action.println "done" none, Action.cancel, Action.dbClose])

/-- The control path of `run` gets as far as its `select` statement. -/
def reachesSelect (w : World) : Bool :=
  w.processErr.isNone && !w.configOnly && w.openErr.isNone

/-- A world in which the listener fails with "address already in use". -/
def listenerFails : World :=
  { processErr := none, configOnly := false, encodeErr := none, openErr := none,
    selected := Selected.serverErrors (some (Error.base "address already in use")),
    shutdownErr := none, closeErr := none }

/-- A world in which a signal arrives, the graceful shutdown runs into its deadline
and the forced close fails too. -/
def signalBothFail : World :=
  { processErr := none, configOnly := false, encodeErr := none, openErr := none,
    selected := Selected.osSignals,
    shutdownErr := some (Error.base "context deadline exceeded"),
    closeErr := some (Error.base "close tcp: use of closed network connection") }

end SalesApi

namespace Products

/-! ## `internal/products/products.go` -/

/-- The struct `Product`. Go's `int` fields are taken as integers. -/
structure Product where
  ID : String
  Name : String
  Cost : Int
  Quantity : Int
  Sold : Int
  Revenue : Int
deriving DecidableEq, Repr

/-- A row of table `products`, with the columns the `INSERT` of `Create` names. -/
structure ProductRow where
  product_id : String
  name : String
  cost : Int
  quantity : Int
deriving DecidableEq, Repr

/-- A row of table `sales`, with the columns the queries and the seed data name. -/
structure SaleRow where
  sale_id : String
  product_id : String
  quantity : Int
  paid : Int
deriving DecidableEq, Repr

/-- The store behind `*sqlx.DB`: the two tables the queries read and write. -/
structure DB where
  products : List ProductRow
  sales : List SaleRow
deriving DecidableEq, Repr

/-- Errors of the package: the predefined `ErrNotFound`, an error reported by the
database driver, and an error wrapped with a message by `errors.Wrap`. -/
inductive Error where
  | ErrNotFound
  | driver (msg : String)
  | wrapped (cause : Error) (message : String)
deriving DecidableEq, Repr

/-- The statement `INSERT INTO products (product_id, name, cost, quantity) VALUES
($1, $2, $3, $4)` run by `db.ExecContext`. `fault` is an error the driver reports
for a reason outside the store (cancelled context, lost connection). `schema` stands
for the column constraints of the table definition kept in package `schema`.
`product_id` is the key of `products` (the queries group by it while selecting
`p.*`), so a row whose `product_id` is present already is refused. -/
def execInsert (fault : Option Error) (schema : ProductRow → Bool) (db : DB)
    (row : ProductRow) : Except Error DB :=
  match fault with
  | some e => Except.error e
  | none =>
    if !schema row then Except.error (Error.driver "row violates a column constraint")
    else if db.products.any (fun p => p.product_id = row.product_id) then
      Except.error (Error.driver "duplicate key value violates unique constraint")
    else Except.ok { db with products := db.products ++ [row] }

/-- The function `Create`. `uuid` is the value of `uuid.New().String()`. Returns the
product as the caller sees it through the pointer `p`, the store, and the error. -/
def Create (fault : Option Error) (schema : ProductRow → Bool) (uuid : String) (db : DB)
    (p : Product) : Product × DB × Option Error :=
  -- p.ID = uuid.New().String()
  let p1 := { p with ID := uuid }
  match execInsert fault schema db
      { product_id := p1.ID, name := p1.Name, cost := p1.Cost, quantity := p1.Quantity } with
  | Except.error e => (p1, db, some (Error.wrapped e "inserting product"))
  | Except.ok db1 => (p1, db1, none)

/-- The query of `Get`: `SELECT p.*, COALESCE(SUM(s.quantity), 0) AS sold,
COALESCE(SUM(s.paid), 0) AS revenue FROM products AS p LEFT JOIN sales AS s ON
p.product_id = s.product_id WHERE p.product_id = $1 GROUP BY p.product_id`. Each
product row with the given id forms a group with the sales rows that join it; the sum
over no sales row is NULL, which `COALESCE` turns into 0. -/
def selectProduct (db : DB) (id : String) : List Product :=
  (db.products.filter (fun p => p.product_id = id)).map (fun p =>
    let joined := db.sales.filter (fun s => p.product_id = s.product_id)
    { ID := p.product_id, Name := p.name, Cost := p.cost, Quantity := p.quantity,
      Sold := (joined.map (fun s => s.quantity)).sum,
      Revenue := (joined.map (fun s => s.paid)).sum })

/-- The function `Get`. `db.GetContext` scans the first row of the result and
reports `sql.ErrNoRows` when there is none. -/
def Get (fault : Option Error) (db : DB) (id : String) : Except Error Product :=
  match fault with
  | some e => Except.error (Error.wrapped e "selecting single product")
  | none =>
    match selectProduct db id with
    | [] => Except.error Error.ErrNotFound
    | p :: _ => Except.ok p

/-- A table definition that accepts every row. -/
def anyRow : ProductRow → Bool := fun _ => true

/-- A store holding the products and sales of the seed data in `schema/seeds.go`,
with the columns the queries of this package name. -/
def seeded : DB :=
  { products :=
      [{ product_id := "a2b0639f-2cc6-44b8-b97b-15d69dbb511e", name := "Comic Books",
         cost := 50, quantity := 42 },
       { product_id := "72f8b983-3eb4-48db-9ed0-e45cc6bd716b", name := "McDonalds Toys",
         cost := 75, quantity := 120 }],
    sales :=
      [{ sale_id := "98b6d4b8-f04b-4c79-8c2e-a0aef46854b7",
         product_id := "a2b0639f-2cc6-44b8-b97b-15d69dbb511e", quantity := 2, paid := 100 },
       { sale_id := "85f6fb09-eb05-4874-ae39-82d1a30fe0d7",
         product_id := "a2b0639f-2cc6-44b8-b97b-15d69dbb511e", quantity := 5, paid := 250 },
       { sale_id := "a235be9e-ab5d-44e6-a987-fa1c749264c7",
         product_id := "72f8b983-3eb4-48db-9ed0-e45cc6bd716b", quantity := 3, paid := 225 }] }

/-- The product posted by the test `ProductCRUD`. -/
def product0 : Product :=
  { ID := "", Name := "product0", Cost := 55, Quantity := 6, Sold := 0, Revenue := 0 }

end Products

/-! # Theorems -/

namespace Mid

/-! ## Metrics middleware -/

section Lemmas
variable {W R E P σ : Type}

theorem wrap64_of_range (x : Int) (h0 : -2 ^ 63 ≤ x) (h1 : x < 2 ^ 63) : wrap64 x = x := by
  unfold wrap64
  omega

theorem record_env (NumG : σ → Int) (err : Option E) (s : State W R σ) :
    (record NumG err s).env = s.env := by
  unfold record reqAdd reqValue numGoroutine grSet errAdd
  dsimp only
  split_ifs <;> rfl

theorem record_req (NumG : σ → Int) (err : Option E) (s : State W R σ) :
    (record NumG err s).m.req = wrap64 (s.m.req + 1) := by
  unfold record reqAdd reqValue numGoroutine grSet errAdd
  dsimp only
  split_ifs <;> rfl

theorem record_err (NumG : σ → Int) (err : Option E) (s : State W R σ) :
    (record NumG err s).m.err = if err.isSome then wrap64 (s.m.err + 1) else s.m.err := by
  unfold record reqAdd reqValue numGoroutine grSet errAdd
  dsimp only
  split_ifs <;> rfl

theorem record_gr (NumG : σ → Int) (err : Option E) (s : State W R σ) :
    (record NumG err s).m.gr =
      if Int.tmod (wrap64 (s.m.req + 1)) 100 = 0 then wrap64 (NumG s.env) else s.m.gr := by
  unfold record reqAdd reqValue numGoroutine grSet errAdd
  dsimp only
  split_ifs <;> rfl

theorem record_trace (NumG : σ → Int) (err : Option E) (s : State W R σ) :
    (record NumG err s).trace =
      s.trace ++ ([Event.reqAdd 1, Event.reqValue]
        ++ (if Int.tmod (wrap64 (s.m.req + 1)) 100 = 0
            then [Event.numGoroutine, Event.grSet (wrap64 (NumG s.env))] else [])
        ++ (if err.isSome then [Event.errAdd 1] else [])) := by
  unfold record reqAdd reqValue numGoroutine grSet errAdd
  dsimp only
  split_ifs <;> simp

theorem Metrics_of_returned (NumG : σ → Int) (before : Handler W R E P σ) (w : W) (r : R)
    (s : State W R σ) (err : Option E) (env1 : σ)
    (h : before w r s.env = (Outcome.returned err, env1)) :
    Metrics NumG before w r s =
      (Outcome.returned err,
        record NumG err { env := env1, m := s.m, trace := s.trace ++ [Event.call w r] }) := by
  unfold Metrics
  simp only [h]

theorem Metrics_of_panicked (NumG : σ → Int) (before : Handler W R E P σ) (w : W) (r : R)
    (s : State W R σ) (v : P) (env1 : σ)
    (h : before w r s.env = (Outcome.panicked v, env1)) :
    Metrics NumG before w r s =
      (Outcome.panicked v, { env := env1, m := s.m, trace := s.trace ++ [Event.call w r] }) := by
  unfold Metrics
  simp only [h]

theorem Metrics_env (NumG : σ → Int) (before : Handler W R E P σ) (w : W) (r : R)
    (s : State W R σ) : (Metrics NumG before w r s).2.env = (before w r s.env).2 := by
  rcases h : before w r s.env with ⟨o, env1⟩
  cases o with
  | returned err => rw [Metrics_of_returned NumG before w r s err env1 h, record_env]
  | panicked v => rw [Metrics_of_panicked NumG before w r s v env1 h]

theorem Metrics_fst (NumG : σ → Int) (before : Handler W R E P σ) (w : W) (r : R)
    (s : State W R σ) : (Metrics NumG before w r s).1 = (before w r s.env).1 := by
  rcases h : before w r s.env with ⟨o, env1⟩
  cases o with
  | returned err => rw [Metrics_of_returned NumG before w r s err env1 h]
  | panicked v => rw [Metrics_of_panicked NumG before w r s v env1 h]

theorem serve_nil (NumG : σ → Int) (before : Handler W R E P σ) (s : State W R σ) :
    serve NumG before [] s = s := rfl

theorem serve_cons (NumG : σ → Int) (before : Handler W R E P σ) (wr : W × R)
    (rest : List (W × R)) (s : State W R σ) :
    serve NumG before (wr :: rest) s =
      serve NumG before rest (Metrics NumG before wr.1 wr.2 s).2 := rfl

theorem serve_append (NumG : σ → Int) (before : Handler W R E P σ)
    (l1 l2 : List (W × R)) (s : State W R σ) :
    serve NumG before (l1 ++ l2) s = serve NumG before l2 (serve NumG before l1 s) := by
  unfold serve
  rw [List.foldl_append]

theorem outcomes_take (before : Handler W R E P σ) (reqs : List (W × R)) (j : Nat) (env : σ) :
    outcomes before (reqs.take j) env = (outcomes before reqs env).take j := by
  induction reqs generalizing j env with
  | nil => simp [outcomes]
  | cons wr rest ih =>
    cases j with
    | zero => simp [outcomes]
    | succ j => simp [outcomes, ih]

theorem outcomes_length (before : Handler W R E P σ) (reqs : List (W × R)) (env : σ) :
    (outcomes before reqs env).length = reqs.length := by
  induction reqs generalizing env with
  | nil => rfl
  | cons wr rest ih => simp [outcomes, ih]

/-- Request total after a run on which every call of the wrapped handler returns and
the total stays inside the `int64` range. -/
theorem serve_req (NumG : σ → Int) (before : Handler W R E P σ) (reqs : List (W × R))
    (s : State W R σ)
    (hret : ∀ o ∈ outcomes before reqs s.env, o.isReturned = true)
    (hr0 : -2 ^ 63 ≤ s.m.req) (hr1 : s.m.req + reqs.length < 2 ^ 63) :
    (serve NumG before reqs s).m.req = s.m.req + reqs.length := by
  induction reqs generalizing s with
  | nil => simp [serve_nil]
  | cons wr rest ih =>
    rw [serve_cons]
    simp only [outcomes, List.mem_cons, forall_eq_or_imp] at hret
    simp only [List.length_cons, Nat.cast_add, Nat.cast_one] at hr1
    obtain ⟨h1, hrest⟩ := hret
    rcases hb : before wr.1 wr.2 s.env with ⟨o, env1⟩
    rw [hb] at h1 hrest
    cases o with
    | panicked v => simp [Outcome.isReturned] at h1
    | returned err =>
      have hM := Metrics_of_returned NumG before wr.1 wr.2 s err env1 hb
      have hreq : (Metrics NumG before wr.1 wr.2 s).2.m.req = s.m.req + 1 := by
        rw [hM, record_req]
        exact wrap64_of_range _ (by dsimp only; omega) (by dsimp only; omega)
      have henv : (Metrics NumG before wr.1 wr.2 s).2.env = env1 := by
        rw [Metrics_env, hb]
      rw [ih (Metrics NumG before wr.1 wr.2 s).2 (by rw [henv]; exact hrest)
        (by rw [hreq]; omega) (by rw [hreq]; omega), hreq]
      simp only [List.length_cons, Nat.cast_add, Nat.cast_one]
      omega

/-- Error total after a run on which every call of the wrapped handler returns and
the total stays inside the `int64` range. -/
theorem serve_err (NumG : σ → Int) (before : Handler W R E P σ) (reqs : List (W × R))
    (s : State W R σ)
    (hret : ∀ o ∈ outcomes before reqs s.env, o.isReturned = true)
    (he0 : -2 ^ 63 ≤ s.m.err) (he1 : s.m.err + reqs.length < 2 ^ 63) :
    (serve NumG before reqs s).m.err =
      s.m.err + ((outcomes before reqs s.env).filter Outcome.isError).length := by
  induction reqs generalizing s with
  | nil => simp [serve_nil, outcomes]
  | cons wr rest ih =>
    rw [serve_cons]
    simp only [outcomes, List.mem_cons, forall_eq_or_imp] at hret
    simp only [List.length_cons, Nat.cast_add, Nat.cast_one] at he1
    obtain ⟨h1, hrest⟩ := hret
    rcases hb : before wr.1 wr.2 s.env with ⟨o, env1⟩
    rw [hb] at h1 hrest
    cases o with
    | panicked v => simp [Outcome.isReturned] at h1
    | returned err =>
      have hM := Metrics_of_returned NumG before wr.1 wr.2 s err env1 hb
      have herr : (Metrics NumG before wr.1 wr.2 s).2.m.err =
          s.m.err + (if err.isSome then 1 else 0) := by
        rw [hM, record_err]
        dsimp only
        split_ifs
        · exact wrap64_of_range _ (by omega) (by omega)
        · simp
      have henv : (Metrics NumG before wr.1 wr.2 s).2.env = env1 := by
        rw [Metrics_env, hb]
      rw [ih (Metrics NumG before wr.1 wr.2 s).2 (by rw [henv]; exact hrest)
        (by rw [herr]; split_ifs <;> omega) (by rw [herr]; split_ifs <;> omega), herr, henv]
      simp only [outcomes, hb]
      cases err with
      | none => simp [Outcome.isError, List.filter_cons]
      | some e => simp [Outcome.isError, List.filter_cons]; omega

/-- On a run whose wrapped handler always returns, the call made for the request
that follows a prefix `l` returns. -/
theorem returned_after_prefix (NumG : σ → Int) (before : Handler W R E P σ)
    (l : List (W × R)) (x : W × R) (s : State W R σ)
    (hret : ∀ o ∈ outcomes before (l ++ [x]) s.env, o.isReturned = true) :
    ∃ err env1, before x.1 x.2 (serve NumG before l s).env = (Outcome.returned err, env1) := by
  induction l generalizing s with
  | nil =>
    simp only [List.nil_append, outcomes, List.mem_cons, forall_eq_or_imp] at hret
    rw [serve_nil]
    rcases hb : before x.1 x.2 s.env with ⟨o, env1⟩
    rw [hb] at hret
    cases o with
    | panicked v => simp [Outcome.isReturned] at hret
    | returned err => exact ⟨err, env1, rfl⟩
  | cons wr rest ih =>
    simp only [List.cons_append, outcomes, List.mem_cons, forall_eq_or_imp] at hret
    rw [serve_cons]
    apply ih
    rw [Metrics_env]
    exact hret.2

theorem any_isGrSet_record_events (w : W) (r : R) (c : Prop) [Decidable c] (v : Int)
    (b : Bool) :
    (([Event.call w r, Event.reqAdd 1, Event.reqValue] : List (Event W R))
      ++ (if c then [Event.numGoroutine, Event.grSet v] else [])
      ++ (if b then [Event.errAdd 1] else [])).any Event.isGrSet = decide c := by
  by_cases hc : c <;> cases b <;> simp [hc, Event.isGrSet]

/-- Every request of `okRequests n` makes the sample handler return. -/
theorem outcomes_okRequests (n env : Nat) :
    ∀ o ∈ outcomes sampleHandler (okRequests n) env, o.isReturned = true := by
  induction n generalizing env with
  | zero => simp [okRequests, outcomes]
  | succ n ih =>
    intro o ho
    simp only [okRequests, List.replicate_succ, outcomes, List.mem_cons] at ho
    rcases ho with rfl | ho
    · rfl
    · exact ih _ o ho

end Lemmas

section Claims
variable {W R E P σ : Type}

/-- C1. Whenever the wrapped handler returns on `(w, r)`, the handler built by
`Metrics` returns exactly the same error value (nil for nil, the same error
otherwise), from every state of the counters. -/
theorem Metrics_returns_inner_error (NumG : σ → Int) (before : Handler W R E P σ)
    (w : W) (r : R) (s : State W R σ) (err : Option E)
    (h : (before w r s.env).1 = Outcome.returned err) :
    (Metrics NumG before w r s).1 = Outcome.returned err := by
  rw [Metrics_fst, h]

/-- Witness for C1: request 200 answered with an error, and answered with nil. -/
theorem Metrics_returns_inner_error_witness :
    (Metrics tenGoroutines sampleHandler () 1 busyState).1
        = Outcome.returned (some "bad request") ∧
    (Metrics tenGoroutines sampleHandler () 2 busyState).1 = Outcome.returned none :=
  ⟨Metrics_returns_inner_error tenGoroutines sampleHandler () 1 busyState
      (some "bad request") (by decide),
   Metrics_returns_inner_error tenGoroutines sampleHandler () 2 busyState none (by decide)⟩

/-- C2, as stated, fails: one request whose wrapped handler panics goes through the
wrapped handler and the request counter, started at 0, is still 0 and not 1. -/
theorem request_total_misses_panicking_request :
    (serve tenGoroutines sampleHandler [((), 0)] (State.init 0)).m.req
      ≠ (([((), 0)] : List (Unit × Nat)).length : Int) := by
  decide

/-- C2, amended. On a run of `N` requests handed one after another to the wrapped
handler, on each of which the inner handler returns, started with request total `r0`
and error total `e0` (in particular 0 and 0) such that `r0 + N` and `e0 + N` stay
below `2 ^ 63`, the request total ends at `r0 + N` and the error total at `e0` plus
the number of requests whose inner handler returned a non-nil error. With `N = 1`:
one invocation adds exactly 1 to the request total, and 1 to the error total exactly
when the inner error is non-nil. -/
theorem serve_counts_requests_and_errors (NumG : σ → Int) (before : Handler W R E P σ)
    (reqs : List (W × R)) (s : State W R σ)
    (hret : ∀ o ∈ outcomes before reqs s.env, o.isReturned = true)
    (hr0 : -2 ^ 63 ≤ s.m.req) (hr1 : s.m.req + reqs.length < 2 ^ 63)
    (he0 : -2 ^ 63 ≤ s.m.err) (he1 : s.m.err + reqs.length < 2 ^ 63) :
    (serve NumG before reqs s).m.req = s.m.req + reqs.length ∧
    (serve NumG before reqs s).m.err =
      s.m.err + ((outcomes before reqs s.env).filter Outcome.isError).length :=
  ⟨serve_req NumG before reqs s hret hr0 hr1, serve_err NumG before reqs s hret he0 he1⟩

/-- Witness for C2: five requests from zeroed counters, two of them answered with an
error; the totals end at 5 and 2. -/
theorem serve_counts_requests_and_errors_witness :
    (serve tenGoroutines sampleHandler [((), 2), ((), 1), ((), 4), ((), 3), ((), 6)]
        (State.init 0)).m.req = 5 ∧
    (serve tenGoroutines sampleHandler [((), 2), ((), 1), ((), 4), ((), 3), ((), 6)]
        (State.init 0)).m.err = 2 := by
  have h := serve_counts_requests_and_errors tenGoroutines sampleHandler
    [((), 2), ((), 1), ((), 4), ((), 3), ((), 6)] (State.init 0)
    (by decide) (by decide) (by decide) (by decide) (by decide)
  exact ⟨h.1.trans (by decide), h.2.trans (by decide)⟩

set_option maxRecDepth 20000 in
/-- C3, as stated, fails: of one hundred requests handed one after another from
request counter 0, the first makes the inner handler panic; the hundredth request
then leaves the gauge alone, although 100 is a multiple of 100. -/
theorem hundredth_request_not_sampled_after_panic :
    100 ∣ 100 ∧
    (emitted
        (serve tenGoroutines sampleHandler (((), 0) :: okRequests 98) (State.init 0))
        (serve tenGoroutines sampleHandler (((), 0) :: okRequests 99) (State.init 0))).any
      Event.isGrSet = false ∧
    (serve tenGoroutines sampleHandler (((), 0) :: okRequests 99) (State.init 0)).m.gr = 0 := by
  refine ⟨by decide, ?_, ?_⟩ <;> rfl

/-- C3, amended. On a run of fewer than `2 ^ 63` requests handed one after another
from request counter 0, on each of which the inner handler returns, the `k`-th request
(`k ≥ 1`) sets the goroutine gauge if and only if `k` is a multiple of 100; when it
does the gauge holds the goroutine count read after the inner handler returned, and
on every other request the gauge is left unchanged. -/
theorem gauge_sampled_on_multiples_of_100 (NumG : σ → Int) (before : Handler W R E P σ)
    (reqs : List (W × R)) (s : State W R σ)
    (hret : ∀ o ∈ outcomes before reqs s.env, o.isReturned = true)
    (hzero : s.m.req = 0) (hlen : (reqs.length : Int) < 2 ^ 63)
    (k : Nat) (hk1 : 1 ≤ k) (hk2 : k ≤ reqs.length) :
    ((emitted (serve NumG before (reqs.take (k - 1)) s)
        (serve NumG before (reqs.take k) s)).any Event.isGrSet = true ↔ 100 ∣ k) ∧
    (100 ∣ k → (serve NumG before (reqs.take k) s).m.gr
        = wrap64 (NumG (serve NumG before (reqs.take k) s).env)) ∧
    (¬ 100 ∣ k → (serve NumG before (reqs.take k) s).m.gr
        = (serve NumG before (reqs.take (k - 1)) s).m.gr) := by
  obtain ⟨j, rfl⟩ : ∃ j, k = j + 1 := ⟨k - 1, by omega⟩
  have hj : j < reqs.length := by omega
  simp only [Nat.add_sub_cancel]
  have htake : reqs.take (j + 1) = reqs.take j ++ [reqs[j]] := by
    rw [List.take_succ, List.getElem?_eq_getElem hj]
    rfl
  have hret1 : ∀ o ∈ outcomes before (reqs.take j ++ [reqs[j]]) s.env,
      o.isReturned = true := by
    intro o ho
    rw [← htake, outcomes_take] at ho
    exact hret o (List.mem_of_mem_take ho)
  have hret0 : ∀ o ∈ outcomes before (reqs.take j) s.env, o.isReturned = true := by
    intro o ho
    rw [outcomes_take] at ho
    exact hret o (List.mem_of_mem_take ho)
  have hlenj : (reqs.take j).length = j := by
    rw [List.length_take]; omega
  have hreq0 : (serve NumG before (reqs.take j) s).m.req = j := by
    rw [serve_req NumG before (reqs.take j) s hret0 (by rw [hzero]; omega)
      (by rw [hzero, hlenj]; omega), hzero, hlenj]
    simp
  obtain ⟨err, env1, hb⟩ := returned_after_prefix NumG before (reqs.take j) reqs[j] s hret1
  have hstep : serve NumG before (reqs.take (j + 1)) s =
      record NumG err ⟨env1, (serve NumG before (reqs.take j) s).m,
        (serve NumG before (reqs.take j) s).trace
          ++ [Event.call (reqs[j]).1 (reqs[j]).2]⟩ := by
    rw [htake, serve_append, serve_cons, serve_nil,
      Metrics_of_returned NumG before _ _ _ err env1 hb]
  have hw : wrap64 ((j : Int) + 1) = (j : Int) + 1 :=
    wrap64_of_range _ (by omega) (by omega)
  have hmod : Int.tmod ((j : Int) + 1) 100 = 0 ↔ 100 ∣ j + 1 := by
    rw [Int.tmod_eq_emod (by omega) (by omega)]
    omega
  refine ⟨?_, ?_, ?_⟩
  · unfold emitted
    rw [hstep, record_trace]
    dsimp only
    rw [hreq0, hw]
    simp only [List.append_assoc, List.drop_left]
    have := any_isGrSet_record_events (reqs[j]).1 (reqs[j]).2
      (Int.tmod ((j : Int) + 1) 100 = 0) (wrap64 (NumG env1)) err.isSome
    simp only [List.append_assoc, List.cons_append, List.nil_append] at this
    simp only [List.cons_append, List.nil_append]
    rw [this, decide_eq_true_iff, hmod]
  · intro hdvd
    rw [hstep, record_gr, record_env]
    dsimp only
    rw [hreq0, hw, if_pos (hmod.2 hdvd)]
  · intro hdvd
    rw [hstep, record_gr]
    dsimp only
    rw [hreq0, hw, if_neg (fun h => hdvd (hmod.1 h))]

/-- Witness for C3: the scenario of 150 requests answered with nil, at `k = 100`. -/
theorem gauge_sampled_on_multiples_of_100_witness :
    ((emitted (serve tenGoroutines sampleHandler ((okRequests 150).take (100 - 1))
          (State.init 0))
        (serve tenGoroutines sampleHandler ((okRequests 150).take 100)
          (State.init 0))).any Event.isGrSet = true ↔ 100 ∣ 100) ∧
    (100 ∣ 100 →
      (serve tenGoroutines sampleHandler ((okRequests 150).take 100) (State.init 0)).m.gr
        = wrap64 (tenGoroutines
            (serve tenGoroutines sampleHandler ((okRequests 150).take 100)
              (State.init 0)).env)) ∧
    (¬ 100 ∣ 100 →
      (serve tenGoroutines sampleHandler ((okRequests 150).take 100) (State.init 0)).m.gr
        = (serve tenGoroutines sampleHandler ((okRequests 150).take (100 - 1))
            (State.init 0)).m.gr) :=
  gauge_sampled_on_multiples_of_100 tenGoroutines sampleHandler (okRequests 150)
    (State.init 0) (outcomes_okRequests 150 0) rfl (by simp [okRequests]) 100
    (by decide) (by simp [okRequests])

/-- C7, as stated, fails for the goroutine gauge: request 200 resamples a gauge that
held 50 while ten goroutines are live, and the gauge drops to 10. -/
theorem gauge_decreases_on_resample :
    ¬ (busyState.m.gr ≤ (Metrics tenGoroutines sampleHandler () 2 busyState).2.m.gr) := by
  decide

/-- C7, amended. For every state in which the request total and the error total are
`int64` values below the maximum `2 ^ 63 - 1`, and every invocation of the wrapped
handler (returning or panicking), each of the two totals is afterwards greater than
or equal to its value before. The goroutine gauge is not monotone: an invocation
either leaves it unchanged or overwrites it with the goroutine count read at that
moment. -/
theorem totals_never_decrease (NumG : σ → Int) (before : Handler W R E P σ)
    (w : W) (r : R) (s : State W R σ)
    (hr0 : -2 ^ 63 ≤ s.m.req) (hr1 : s.m.req < 2 ^ 63 - 1)
    (he0 : -2 ^ 63 ≤ s.m.err) (he1 : s.m.err < 2 ^ 63 - 1) :
    s.m.req ≤ (Metrics NumG before w r s).2.m.req ∧
    s.m.err ≤ (Metrics NumG before w r s).2.m.err ∧
    ((Metrics NumG before w r s).2.m.gr = s.m.gr ∨
      (Metrics NumG before w r s).2.m.gr
        = wrap64 (NumG (Metrics NumG before w r s).2.env)) := by
  rcases hb : before w r s.env with ⟨o, env1⟩
  cases o with
  | panicked v =>
    rw [Metrics_of_panicked NumG before w r s v env1 hb]
    exact ⟨le_refl _, le_refl _, Or.inl rfl⟩
  | returned err =>
    rw [Metrics_of_returned NumG before w r s err env1 hb, record_req, record_err,
      record_gr, record_env]
    dsimp only
    refine ⟨?_, ?_, ?_⟩
    · rw [wrap64_of_range _ (by omega) (by omega)]; omega
    · split_ifs
      · rw [wrap64_of_range _ (by omega) (by omega)]; omega
      · exact le_refl _
    · split_ifs
      · exact Or.inr rfl
      · exact Or.inl rfl

/-- Witness for C7: request 200, answered with an error. -/
theorem totals_never_decrease_witness :
    busyState.m.req ≤ (Metrics tenGoroutines sampleHandler () 1 busyState).2.m.req ∧
    busyState.m.err ≤ (Metrics tenGoroutines sampleHandler () 1 busyState).2.m.err ∧
    ((Metrics tenGoroutines sampleHandler () 1 busyState).2.m.gr = busyState.m.gr ∨
      (Metrics tenGoroutines sampleHandler () 1 busyState).2.m.gr
        = wrap64 (tenGoroutines (Metrics tenGoroutines sampleHandler () 1 busyState).2.env)) :=
  totals_never_decrease tenGoroutines sampleHandler () 1 busyState
    (by decide) (by decide) (by decide) (by decide)

/-- C10. The handler built by `Metrics` calls the wrapped handler exactly once, with
the writer and request it was given, and before any operation on a counter: the
actions it adds to the trace start with that call and contain no other call, and the
environment is left as that one call left it. It does not intercept a panic: when the
wrapped handler panics with `v` the outcome is the same panic, the three counters are
unchanged and nothing but the call was performed. -/
theorem Metrics_calls_inner_once_and_lets_panics_through (NumG : σ → Int)
    (before : Handler W R E P σ) (w : W) (r : R) (s : State W R σ) :
    (∃ rest, (Metrics NumG before w r s).2.trace = s.trace ++ Event.call w r :: rest ∧
      ∀ e ∈ rest, e.isCall = false) ∧
    (Metrics NumG before w r s).2.env = (before w r s.env).2 ∧
    (∀ v, (before w r s.env).1 = Outcome.panicked v →
      (Metrics NumG before w r s).1 = Outcome.panicked v ∧
      (Metrics NumG before w r s).2.m = s.m ∧
      (Metrics NumG before w r s).2.trace = s.trace ++ [Event.call w r]) := by
  refine ⟨?_, Metrics_env NumG before w r s, ?_⟩
  · rcases hb : before w r s.env with ⟨o, env1⟩
    cases o with
    | panicked v =>
      rw [Metrics_of_panicked NumG before w r s v env1 hb]
      exact ⟨[], rfl, by simp⟩
    | returned err =>
      rw [Metrics_of_returned NumG before w r s err env1 hb, record_trace]
      refine ⟨_, by simp only [List.append_assoc, List.singleton_append]; rfl, ?_⟩
      intro e he
      simp only [List.append_assoc, List.mem_append, List.mem_cons, List.mem_singleton,
        List.not_mem_nil, or_false] at he
      rcases he with (rfl | rfl) | he | he
      · rfl
      · rfl
      · split_ifs at he
        · simp only [List.mem_cons, List.mem_singleton, List.not_mem_nil, or_false] at he
          rcases he with rfl | rfl <;> rfl
        · simp at he
      · split_ifs at he
        · simp only [List.mem_singleton] at he
          rw [he]; rfl
        · simp at he
  · intro v hv
    rcases hb : before w r s.env with ⟨o, env1⟩
    rw [hb] at hv
    dsimp only at hv
    subst hv
    rw [Metrics_of_panicked NumG before w r s v env1 hb]
    exact ⟨rfl, rfl, rfl⟩

/-- Witness for C10: a request on which the sample handler panics, in a state with
non-zero counters. -/
theorem Metrics_calls_inner_once_and_lets_panics_through_witness :
    (Metrics tenGoroutines sampleHandler () 0 busyState).1 = Outcome.panicked "boom" ∧
    (Metrics tenGoroutines sampleHandler () 0 busyState).2.m = busyState.m ∧
    (Metrics tenGoroutines sampleHandler () 0 busyState).2.trace
      = busyState.trace ++ [Event.call () 0] :=
  (Metrics_calls_inner_once_and_lets_panics_through tenGoroutines sampleHandler () 0
    busyState).2.2 "boom" (by decide)

/-- The bound `2 ^ 63` on the totals cannot be dropped: one more counted request at
the largest `int64` value wraps the request total to the smallest one. -/
theorem request_total_wraps_at_int64_max :
    (Metrics tenGoroutines sampleHandler () 2
      { env := 0, m := { gr := 0, req := 2 ^ 63 - 1, err := 0 }, trace := [] }).2.m.req
      = -2 ^ 63 := by
  decide

end Claims

end Mid

namespace SalesApi

/-! ## Service lifecycle -/

theorem run_of_serverErrors (w : World) (err : Option Error)
    (hreach : reachesSelect w = true) (hsel : w.selected = Selected.serverErrors err) :
    run w = (Wrap err "listening and serving",
      [Action.envconfigProcess, Action.databaseOpen, Action.goListenAndServe,
       Action.signalNotify, Action.dbClose]) := by
  obtain ⟨pe, co, ee, oe, sel, se, ce⟩ := w
  simp only [reachesSelect, Bool.and_eq_true, Option.isNone_iff_eq_none,
    Bool.not_eq_true'] at hreach
  obtain ⟨⟨rfl, rfl⟩, rfl⟩ := hreach
  dsimp only at hsel
  subst hsel
  rfl

theorem run_of_osSignals (w : World)
    (hreach : reachesSelect w = true) (hsel : w.selected = Selected.osSignals) :
    run w = (none,
      [Action.envconfigProcess, Action.databaseOpen, Action.goListenAndServe,
       Action.signalNotify] ++ onSignal w ++
      [Action.println "done" none, Action.cancel, Action.dbClose]) := by
  obtain ⟨pe, co, ee, oe, sel, se, ce⟩ := w
  simp only [reachesSelect, Bool.and_eq_true, Option.isNone_iff_eq_none,
    Bool.not_eq_true'] at hreach
  obtain ⟨⟨rfl, rfl⟩, rfl⟩ := hreach
  dsimp only at hsel
  subst hsel
  rfl

/-- C4. When the `select` of `run` receives a non-nil error `e` from the
server-error channel, `run` returns the non-nil error `e` wrapped with the message
"listening and serving" (so never nil), and neither `server.Shutdown` nor
`server.Close` is called on that path. -/
theorem run_listener_failure_is_fatal (w : World) (e : Error)
    (hreach : reachesSelect w = true)
    (hsel : w.selected = Selected.serverErrors (some e)) :
    (run w).1 = some (Error.wrapped e "listening and serving") ∧
    (run w).1 ≠ none ∧
    Action.serverShutdown ∉ (run w).2 ∧
    Action.serverClose ∉ (run w).2 := by
  rw [run_of_serverErrors w (some e) hreach hsel]
  refine ⟨rfl, by simp [Wrap], ?_, ?_⟩ <;> simp

/-- Witness for C4: the listener cannot bind its address. -/
theorem run_listener_failure_is_fatal_witness :
    (run listenerFails).1
      = some (Error.wrapped (Error.base "address already in use") "listening and serving") ∧
    (run listenerFails).1 ≠ none ∧
    Action.serverShutdown ∉ (run listenerFails).2 ∧
    Action.serverClose ∉ (run listenerFails).2 :=
  run_listener_failure_is_fatal listenerFails (Error.base "address already in use")
    (by decide) (by decide)

/-- C5. When the `select` of `run` receives an OS signal, `run` returns nil whatever
`server.Shutdown` and `server.Close` return: Shutdown succeeding, Shutdown failing and
Close succeeding, Shutdown and Close both failing. -/
theorem run_signal_returns_nil (w : World)
    (hreach : reachesSelect w = true) (hsel : w.selected = Selected.osSignals) :
    (run w).1 = none := by
  rw [run_of_osSignals w hreach hsel]

/-- Witness for C5: graceful shutdown and forced close both fail. -/
theorem run_signal_returns_nil_witness : (run signalBothFail).1 = none :=
  run_signal_returns_nil signalBothFail (by decide) (by decide)

/-- C6. On the OS-signal path of `run`, `server.Shutdown` is called exactly once;
`server.Close` is called exactly once when that call returned a non-nil error and not
at all when it returned nil; and when `server.Close` returns an error too, that error
is logged, after the line that logs the failed graceful shutdown. -/
theorem run_signal_shutdown_then_forced_close (w : World)
    (hreach : reachesSelect w = true) (hsel : w.selected = Selected.osSignals) :
    (run w).2.count Action.serverShutdown = 1 ∧
    (run w).2.count Action.serverClose = (if w.shutdownErr.isSome then 1 else 0) ∧
    (∀ e1 e2, w.shutdownErr = some e1 → w.closeErr = some e2 →
      ∃ pre mid post, (run w).2 =
        pre ++ [Action.println "gracefully shutting down server" (some e1)] ++ mid
          ++ [Action.println "closing server" (some e2)] ++ post) := by
  rw [run_of_osSignals w hreach hsel]
  dsimp only
  refine ⟨?_, ?_, ?_⟩
  · unfold onSignal
    cases w.shutdownErr <;> cases w.closeErr <;> simp [List.count_cons]
  · unfold onSignal
    cases w.shutdownErr <;> cases w.closeErr <;> simp [List.count_cons]
  · intro e1 e2 h1 h2
    unfold onSignal
    rw [h1, h2]
    exact ⟨[Action.envconfigProcess, Action.databaseOpen, Action.goListenAndServe,
        Action.signalNotify, Action.println "caught signal, shutting down" none,
        Action.withTimeout, Action.serverShutdown],
      [Action.serverClose],
      [Action.println "done" none, Action.cancel, Action.dbClose], rfl⟩

/-- Witness for C6: graceful shutdown and forced close both fail. -/
theorem run_signal_shutdown_then_forced_close_witness :
    (run signalBothFail).2.count Action.serverShutdown = 1 ∧
    (run signalBothFail).2.count Action.serverClose = 1 ∧
    ∃ pre mid post, (run signalBothFail).2 =
        pre ++ [Action.println "gracefully shutting down server"
            (some (Error.base "context deadline exceeded"))] ++ mid
          ++ [Action.println "closing server"
            (some (Error.base "close tcp: use of closed network connection"))] ++ post :=
  have h := run_signal_shutdown_then_forced_close signalBothFail (by decide) (by decide)
  ⟨h.1, h.2.1, h.2.2 _ _ rfl rfl⟩

end SalesApi

namespace Products

/-! ## Product store -/

theorem selectProduct_append_fresh (db : DB) (row : ProductRow)
    (hfresh : db.products.any (fun p => p.product_id = row.product_id) = false)
    (hsales : ∀ s ∈ db.sales, s.product_id ≠ row.product_id) :
    selectProduct { db with products := db.products ++ [row] } row.product_id =
      [{ ID := row.product_id, Name := row.name, Cost := row.cost, Quantity := row.quantity,
         Sold := 0, Revenue := 0 }] := by
  unfold selectProduct
  have h1 : db.products.filter (fun p => p.product_id = row.product_id) = [] := by
    rw [List.filter_eq_nil_iff]
    intro p hp
    rw [List.any_eq_false] at hfresh
    exact hfresh p hp
  have h2 : db.sales.filter (fun s => row.product_id = s.product_id) = [] := by
    rw [List.filter_eq_nil_iff]
    intro s hs
    have := hsales s hs
    simp only [decide_eq_true_eq]
    exact fun h => this h.symm
  simp only [List.filter_append, h1, List.nil_append]
  simp [List.filter_cons, h2]

/-- A successful `Create` went through every check of the insert, and its results
are the product with the fresh id and the store with one more row. -/
theorem Create_of_success (fault : Option Error) (schema : ProductRow → Bool)
    (uuid : String) (db : DB) (p : Product)
    (hok : (Create fault schema uuid db p).2.2 = none) :
    db.products.any (fun q => q.product_id = uuid) = false ∧
    Create fault schema uuid db p =
      ({ p with ID := uuid },
       { db with products := db.products ++ [⟨uuid, p.Name, p.Cost, p.Quantity⟩] },
       none) := by
  unfold Create execInsert at hok ⊢
  cases fault with
  | some e => simp at hok
  | none =>
    dsimp only at hok ⊢
    cases hs : schema ⟨uuid, p.Name, p.Cost, p.Quantity⟩ with
    | false => simp [hs] at hok
    | true =>
      cases hdup : db.products.any (fun q => decide (q.product_id = uuid)) with
      | true => simp [hs, hdup] at hok
      | false => simp [hs, hdup]

/-- C8. Create followed by Get round-trips a product. For every product `p` with
`Sold = 0` and `Revenue = 0` and every store on which `Create` succeeds, `Create`
sets `p.ID` (to the fresh uuid) and leaves Name, Cost, Quantity, Sold and Revenue as
they were, and a following `Get` with that id, run by the driver on the resulting
store holding no sales row for it, returns a product equal to `p` in every field
(`Sold` and `Revenue` are the 0 that `COALESCE` makes of the empty sums). -/
theorem Create_then_Get_roundtrip (fault : Option Error) (schema : ProductRow → Bool)
    (uuid : String) (db : DB) (p : Product)
    (hsold : p.Sold = 0) (hrev : p.Revenue = 0)
    (hok : (Create fault schema uuid db p).2.2 = none)
    (hsales : ∀ s ∈ (Create fault schema uuid db p).2.1.sales, s.product_id ≠ uuid) :
    (Create fault schema uuid db p).1 = { p with ID := uuid } ∧
    Get none (Create fault schema uuid db p).2.1 (Create fault schema uuid db p).1.ID
      = Except.ok (Create fault schema uuid db p).1 := by
  obtain ⟨hfresh, hC⟩ := Create_of_success fault schema uuid db p hok
  rw [hC] at hsales ⊢
  refine ⟨rfl, ?_⟩
  dsimp only at hsales ⊢
  unfold Get
  dsimp only
  have hsel := selectProduct_append_fresh db ⟨uuid, p.Name, p.Cost, p.Quantity⟩
    hfresh hsales
  dsimp only at hsel
  rw [hsel, hsold, hrev]

/-- Witness for C8: the product posted by the test, created on the seeded store. -/
theorem Create_then_Get_roundtrip_witness :
    (Create none anyRow "5cf37266-3473-4006-984f-9325122678b7" seeded product0).1
      = { product0 with ID := "5cf37266-3473-4006-984f-9325122678b7" } ∧
    Get none (Create none anyRow "5cf37266-3473-4006-984f-9325122678b7" seeded product0).2.1
        (Create none anyRow "5cf37266-3473-4006-984f-9325122678b7" seeded product0).1.ID
      = Except.ok (Create none anyRow "5cf37266-3473-4006-984f-9325122678b7" seeded
          product0).1 :=
  Create_then_Get_roundtrip none anyRow "5cf37266-3473-4006-984f-9325122678b7" seeded
    product0 rfl rfl (by decide) (by decide)

end Products
